import Mathlib

/-
Verification development for the StreamableHTTP client transport of this
repository.  The transport implementation module (mcp/client/streamable_http.py)
is not shipped in this source tree; only its test suite
(tests/client/test_streamable_http_edge_cases.py) and example callers are.
The definitions below are therefore a shallow model of that module: each is
modelled from the specification's description of the component, and every
behaviour a test pins down (status codes, emitted error codes and messages,
channel traffic) is followed as the tests assert it.

Effects are made explicit: the read channel becomes a list of channel items,
network activity becomes a count of calls plus an explicit success-or-failure
input, exceptions become Except / Option values, and the resumption-token
callback becomes a recorded list of the token strings it would be invoked with.
JSON parsing (done by the pydantic layer in the source) is an external
collaborator, so handlers take the decoder as a function argument.
-/

set_option autoImplicit false

namespace StreamableHttpModel

/-- A JSON value, used for the structured result payload of a response. -/
inductive JsonValue where
  | null
  | bool (b : Bool)
  | num (n : Int)
  | str (s : String)
  | arr (elems : List JsonValue)
  | obj (fields : List (String × JsonValue))

/-- Modelled from the spec: a protocol Request carries an id and a method.
Request ids are modelled as strings, matching every id the test suite uses. -/
structure JSONRPCRequest where
  id : String
  method : String

/-- Modelled from the spec: a Notification carries a method and no id. -/
structure JSONRPCNotification where
  method : String

/-- Modelled from the spec: a Response carries the id it answers and a result. -/
structure JSONRPCResponse where
  id : String
  result : JsonValue

/-- The code and message of a protocol-level error. -/
structure ErrorData where
  code : Int
  message : String

/-- Modelled from the spec: an ErrorResponse carries an id and error data. -/
structure JSONRPCError where
  id : String
  error : ErrorData

/-- Modelled from the spec: the protocol message is a tagged union of
Request, Notification, Response and ErrorResponse. -/
inductive JSONRPCMessage where
  | request (r : JSONRPCRequest)
  | notification (n : JSONRPCNotification)
  | response (r : JSONRPCResponse)
  | error (e : JSONRPCError)

/-- Modelled from the spec: per-message metadata, with an optional resumption
token and an optional token-update callback.  The callback function itself is
opaque to the transport, so the model keeps only whether one is registered;
its invocations are recorded in the handlers' outputs. -/
structure ClientMessageMetadata where
  resumption_token : Option String
  has_on_resumption_token_update : Bool

/-- Modelled from the spec: a session message is a protocol message plus
optional transport-opaque metadata. -/
structure SessionMessage where
  message : JSONRPCMessage
  metadata : Option ClientMessageMetadata

/-- Modelled from the spec: the mutable transport state, with the base URL,
the server-assigned session id and the negotiated protocol version. -/
structure StreamableHTTPTransport where
  url : String
  session_id : Option String
  protocol_version : Option String

/-- Modelled from the spec: a raw SSE record with event name, data payload
and optional id.  The id is `none` when the wire record carries no id (the
source treats the empty id the same way). -/
structure ServerSentEvent where
  event : String
  data : String
  id : Option String

/-- The exception values the transport can place on the read channel or
raise: the value error for an unexpected content type, the decode error of
an unparsable payload, an HTTP status error, the resumption error of a
token-less resumed send, and a connection-level failure. -/
inductive TransportException where
  | valueError (msg : String)
  | decodeError (msg : String)
  | httpStatusError (status : Nat)
  | resumptionError (msg : String)
  | connectError (msg : String)

/-- One item of the read channel: either a session message or an exception
value, exactly the two shapes the source channel accepts. -/
inductive ChannelItem where
  | msg (m : SessionMessage)
  | exc (e : TransportException)

/-- A decoder from raw text to a protocol message; decoding is done by the
external pydantic layer in the source, so handlers receive it as an input. -/
abbrev Decoder : Type := String → Except String JSONRPCMessage

/-- Looks a key up in the field list of a JSON object. -/
def lookupField : List (String × JsonValue) → String → Option JsonValue
  | [], _ => none
  | (k, v) :: rest, key => if k = key then some v else lookupField rest key

/-- Modelled from the spec: inspect a structured result payload for a string
protocolVersion field; a non-object result or an object without the field
yields nothing. -/
def extractProtocolVersion : JsonValue → Option String
  | JsonValue.obj fields =>
      match lookupField fields "protocolVersion" with
      | some (JsonValue.str v) => some v
      | _ => none
  | _ => none

/-- Modelled from the spec: protocol-version extraction from an initialize
response.  The result payload of a Response is inspected for a
protocolVersion field; on structural mismatch the version is left unset and
a warning is logged, never raising out of the handler. -/
def maybe_extract_protocol_version_from_message
    (t : StreamableHTTPTransport) (m : JSONRPCMessage) : StreamableHTTPTransport :=
  match m with
  | JSONRPCMessage.response r =>
      match extractProtocolVersion r.result with
      | some v => { t with protocol_version := some v }
      | none => t
  | _ => t

/-- Replaces the id of a Response or ErrorResponse with the original request
id, when one is supplied; other messages and the no-original case pass
through unchanged. -/
def replaceResponseId (origId : Option String) (m : JSONRPCMessage) : JSONRPCMessage :=
  match origId with
  | none => m
  | some oid =>
      match m with
      | JSONRPCMessage.response r => JSONRPCMessage.response { r with id := oid }
      | JSONRPCMessage.error e => JSONRPCMessage.error { e with id := oid }
      | m => m

/-- True exactly for Response and ErrorResponse messages. -/
def isResponseOrError : JSONRPCMessage → Bool
  | JSONRPCMessage.response _ => true
  | JSONRPCMessage.error _ => true
  | _ => false

/-- The output of handling one SSE record: the updated transport state, the
items pushed onto the read channel, the token strings the resumption
callback would be invoked with, and whether the record completes the
exchange. -/
structure SSEEventResult where
  transport : StreamableHTTPTransport
  channel : List ChannelItem
  tokenUpdates : List String
  complete : Bool

/-- Modelled from the spec: the SSE event handler.  A record named
"message" has its data decoded; a decode failure pushes the decode
exception itself onto the read channel and reports the record as not
complete.  On success, when an original request id is supplied the decoded
Response or ErrorResponse is re-keyed to it; during initialization the
protocol version is extracted; the message is forwarded to the read
channel; when the record carries an id and an update callback is
registered, the callback is invoked with that id; the record is complete
exactly when the message is a Response or ErrorResponse.  A record with any
other event name is ignored and not complete. -/
def handle_sse_event (t : StreamableHTTPTransport) (decode : Decoder)
    (sse : ServerSentEvent) (original_request_id : Option String)
    (has_resumption_callback : Bool) (is_initialization : Bool) : SSEEventResult :=
  if sse.event = "message" then
    match decode sse.data with
    | Except.error e =>
        { transport := t
          channel := [ChannelItem.exc (TransportException.decodeError e)]
          tokenUpdates := []
          complete := false }
    | Except.ok decoded =>
        let message := replaceResponseId original_request_id decoded
        let t1 := if is_initialization
          then maybe_extract_protocol_version_from_message t message
          else t
        let updates :=
          match sse.id with
          | some tok => if has_resumption_callback then [tok] else []
          | none => []
        { transport := t1
          channel := [ChannelItem.msg { message := message, metadata := none }]
          tokenUpdates := updates
          complete := isResponseOrError message }
  else
    { transport := t, channel := [], tokenUpdates := [], complete := false }

/-- The accumulated output of an SSE decoding loop. -/
structure SSEStreamResult where
  transport : StreamableHTTPTransport
  channel : List ChannelItem
  tokenUpdates : List String

/-- Modelled from the spec: the SSE decoding loop of a POST or resumption
response.  Each record is handled in order; the loop stops as soon as a
record signals completion for this exchange, otherwise it continues through
the rest of the stream. -/
def processSSEStream (decode : Decoder) (original_request_id : Option String)
    (has_resumption_callback : Bool) (is_initialization : Bool) :
    StreamableHTTPTransport → List ServerSentEvent → SSEStreamResult
  | t, [] => { transport := t, channel := [], tokenUpdates := [] }
  | t, e :: rest =>
      let r := handle_sse_event t decode e original_request_id
        has_resumption_callback is_initialization
      if r.complete then
        { transport := r.transport, channel := r.channel, tokenUpdates := r.tokenUpdates }
      else
        let more := processSSEStream decode original_request_id
          has_resumption_callback is_initialization r.transport rest
        { transport := more.transport
          channel := r.channel ++ more.channel
          tokenUpdates := r.tokenUpdates ++ more.tokenUpdates }

/-- Modelled from the spec: the GET listener's open-ended SSE loop, which
never signals completion on its own: every record of the stream is handled
and its channel output forwarded. -/
def processOpenStream (decode : Decoder) :
    StreamableHTTPTransport → List ServerSentEvent → SSEStreamResult
  | t, [] => { transport := t, channel := [], tokenUpdates := [] }
  | t, e :: rest =>
      let r := handle_sse_event t decode e none false false
      let more := processOpenStream decode r.transport rest
      { transport := more.transport
        channel := r.channel ++ more.channel
        tokenUpdates := r.tokenUpdates ++ more.tokenUpdates }

/-- The output of handling one application/json response body. -/
structure JsonResponseResult where
  transport : StreamableHTTPTransport
  channel : List ChannelItem

/-- Modelled from the spec: the application/json response path.  The body is
parsed as one protocol message; on parse failure the decode error is
emitted onto the read channel instead of raising out of the handler; on
success, during initialization the protocol version is extracted, and the
message is forwarded to the read channel. -/
def handle_json_response (t : StreamableHTTPTransport) (decode : Decoder)
    (body : String) (is_initialization : Bool) : JsonResponseResult :=
  match decode body with
  | Except.error e =>
      { transport := t
        channel := [ChannelItem.exc (TransportException.decodeError e)] }
  | Except.ok message =>
      let t1 := if is_initialization
        then maybe_extract_protocol_version_from_message t message
        else t
      { transport := t1
        channel := [ChannelItem.msg { message := message, metadata := none }] }

/-- Modelled from the spec: the value error emitted for a 200 response whose
content type is neither application/json nor text/event-stream. -/
def handle_unexpected_content_type (content_type : String) : List ChannelItem :=
  [ChannelItem.exc (TransportException.valueError
    ("Unexpected content type: " ++ content_type))]

/-- Modelled from the spec and the test suite: the ErrorResponse synthesized
for a 404 on an outstanding Request.  The specification text quotes the
reserved JSON-RPC invalid-request code -32600, but the repository's own test
(test_handle_post_request_404_with_request) asserts that the emitted code
equals 32600, so the model follows the test. -/
def send_session_terminated_error (request_id : String) : SessionMessage :=
  { message := JSONRPCMessage.error
      { id := request_id
        error := { code := 32600, message := "Session terminated" } }
    metadata := none }

/-- Modelled from the spec: the immutable bundle describing one outgoing
message's delivery parameters. -/
structure RequestContext where
  headers : List (String × String)
  session_id : Option String
  session_message : SessionMessage
  metadata : Option ClientMessageMetadata
  sse_read_timeout : Nat

/-- The resumption token of an optional metadata bundle. -/
def resumptionTokenOf : Option ClientMessageMetadata → Option String
  | some md => md.resumption_token
  | none => none

/-- Whether an optional metadata bundle registers a token-update callback. -/
def hasCallbackOf : Option ClientMessageMetadata → Bool
  | some md => md.has_on_resumption_token_update
  | none => false

/-- True exactly for the initialize Request, whose response carries the
negotiated protocol version. -/
def is_initialization_request : JSONRPCMessage → Bool
  | JSONRPCMessage.request r => r.method = "initialize"
  | _ => false

/-- A character-level prefix test, modelling the source's use of the
startswith test on the content-type header value. -/
def strStartsWith (s p : String) : Bool :=
  List.isPrefixOf p.toList s.toList

/-- The response a POST can produce: a status code, a content-type header
value, and a body — raw text for the JSON path, a record stream for the
SSE path. -/
structure PostResponse where
  status_code : Nat
  content_type : String
  json_body : String
  sse_events : List ServerSentEvent

/-- The output of one POST exchange, when no exception escapes the handler. -/
structure PostResult where
  transport : StreamableHTTPTransport
  channel : List ChannelItem
  tokenUpdates : List String

/-- Modelled from the spec: the POST request handler's decision table on
(status, content-type).  The network outcome is an input: a connection-level
failure at send time escapes the handler as an exception (its caller, the
writer pump, catches it).  202 returns with no output; 404 synthesizes the
session-terminated ErrorResponse for a Request and silently succeeds for a
Notification; any other non-2xx status is surfaced on the read channel as an
HTTP status error; a 2xx response is dispatched on content type to the JSON
path, the SSE loop, or the unexpected-content-type error. -/
def handle_post_request (t : StreamableHTTPTransport) (decode : Decoder)
    (ctx : RequestContext) (net : Except String PostResponse) :
    Except TransportException PostResult :=
  match net with
  | Except.error e => Except.error (TransportException.connectError e)
  | Except.ok resp =>
      if resp.status_code = 202 then
        Except.ok { transport := t, channel := [], tokenUpdates := [] }
      else if resp.status_code = 404 then
        match ctx.session_message.message with
        | JSONRPCMessage.request r =>
            Except.ok
              { transport := t
                channel := [ChannelItem.msg (send_session_terminated_error r.id)]
                tokenUpdates := [] }
        | _ => Except.ok { transport := t, channel := [], tokenUpdates := [] }
      else if resp.status_code < 200 ∨ 300 ≤ resp.status_code then
        Except.ok
          { transport := t
            channel := [ChannelItem.exc (TransportException.httpStatusError resp.status_code)]
            tokenUpdates := [] }
      else
        let isInit := is_initialization_request ctx.session_message.message
        if strStartsWith resp.content_type "application/json" then
          let jr := handle_json_response t decode resp.json_body isInit
          Except.ok { transport := jr.transport, channel := jr.channel, tokenUpdates := [] }
        else if strStartsWith resp.content_type "text/event-stream" then
          let sr := processSSEStream decode none (hasCallbackOf ctx.metadata) isInit
            t resp.sse_events
          Except.ok
            { transport := sr.transport
              channel := sr.channel
              tokenUpdates := sr.tokenUpdates }
        else
          Except.ok
            { transport := t
              channel := handle_unexpected_content_type resp.content_type
              tokenUpdates := [] }

/-- The output of one resumption exchange: network calls made, channel
traffic, callback invocations, and the exception raised, if any. -/
structure ResumptionResult where
  transport : StreamableHTTPTransport
  networkCalls : Nat
  channel : List ChannelItem
  tokenUpdates : List String
  raised : Option TransportException

/-- Modelled from the spec: the resumption handler.  When the metadata
carries no resumption token it fails fast with a ResumptionError, before
any network call and before any channel output.  Otherwise it opens the
replay SSE connection (a connection failure escapes as an exception after
that one call), re-keys Responses to the original request id, and runs the
SSE loop with the registered token-update callback. -/
def handle_resumption_request (t : StreamableHTTPTransport) (decode : Decoder)
    (ctx : RequestContext) (net : Except String (List ServerSentEvent)) :
    ResumptionResult :=
  match resumptionTokenOf ctx.metadata with
  | none =>
      { transport := t, networkCalls := 0, channel := [], tokenUpdates := []
        raised := some (TransportException.resumptionError
          "Resumption request requires a resumption token") }
  | some _ =>
      match net with
      | Except.error e =>
          { transport := t, networkCalls := 1, channel := [], tokenUpdates := []
            raised := some (TransportException.connectError e) }
      | Except.ok events =>
          let origId :=
            match ctx.session_message.message with
            | JSONRPCMessage.request r => some r.id
            | _ => none
          let sr := processSSEStream decode origId (hasCallbackOf ctx.metadata) false
            t events
          { transport := sr.transport, networkCalls := 1, channel := sr.channel
            tokenUpdates := sr.tokenUpdates, raised := none }

/-- The output of one run of the GET stream listener. -/
structure GetStreamResult where
  transport : StreamableHTTPTransport
  networkCalls : Nat
  channel : List ChannelItem
  raised : Bool

/-- The body of the GET listener, before its catch-all handler: return
immediately with no network call when no session id is known, otherwise
open the persistent SSE subscription (one network call) and forward every
decoded event; a connection-level failure propagates out of the body. -/
def handle_get_stream_body (t : StreamableHTTPTransport) (decode : Decoder)
    (net : Except String (List ServerSentEvent)) :
    Except String (StreamableHTTPTransport × Nat × List ChannelItem) :=
  match t.session_id with
  | none => Except.ok (t, 0, [])
  | some _ =>
      match net with
      | Except.error e => Except.error e
      | Except.ok events =>
          let sr := processOpenStream decode t events
          Except.ok (sr.transport, 1, sr.channel)

/-- Modelled from the spec: the GET stream listener.  Connection-level
failures are caught and logged, the listener exits quietly with nothing
placed on the read channel, and nothing is escalated to the caller. -/
def handle_get_stream (t : StreamableHTTPTransport) (decode : Decoder)
    (net : Except String (List ServerSentEvent)) : GetStreamResult :=
  match handle_get_stream_body t decode net with
  | Except.ok (t2, calls, ch) =>
      { transport := t2, networkCalls := calls, channel := ch, raised := false }
  | Except.error _ =>
      { transport := t, networkCalls := 1, channel := [], raised := false }

/-- How one run of the session terminator ends. -/
inductive TerminateOutcome where
  | noSession
  | success
  | methodNotAllowed
  | warnedStatus (status : Nat)
  | warnedConnectionError (msg : String)

/-- The output of one run of the session terminator. -/
structure TerminateResult where
  networkCalls : Nat
  outcome : TerminateOutcome
  raised : Bool

/-- The body of the session terminator, before its catch-all handler:
no-op without a session id; otherwise one termination call whose status is
interpreted — 405 is logged at debug level, 200 and 204 succeed, any other
status is logged at warning level; a connection failure propagates out of
the body. -/
def terminate_session_body (t : StreamableHTTPTransport)
    (net : Except String Nat) : Except String (Nat × TerminateOutcome) :=
  match t.session_id with
  | none => Except.ok (0, TerminateOutcome.noSession)
  | some _ =>
      match net with
      | Except.error e => Except.error e
      | Except.ok status =>
          if status = 405 then Except.ok (1, TerminateOutcome.methodNotAllowed)
          else if status = 200 ∨ status = 204 then Except.ok (1, TerminateOutcome.success)
          else Except.ok (1, TerminateOutcome.warnedStatus status)

/-- Modelled from the spec: the best-effort session terminator.  Any
connection failure is caught and logged at warning level; termination never
raises to the caller's shutdown path. -/
def terminate_session (t : StreamableHTTPTransport)
    (net : Except String Nat) : TerminateResult :=
  match terminate_session_body t net with
  | Except.ok (calls, outcome) =>
      { networkCalls := calls, outcome := outcome, raised := false }
  | Except.error e =>
      { networkCalls := 1
        outcome := TerminateOutcome.warnedConnectionError e
        raised := false }

/-- The output of one run of the writer pump: channel traffic produced
before any failure, whether the pump's own streams were closed on the way
out, and whether anything escaped to the caller. -/
structure PostWriterResult where
  transport : StreamableHTTPTransport
  channel : List ChannelItem
  read_stream_writer_closed : Bool
  write_stream_closed : Bool
  raised : Bool

/-- The loop of the writer pump: each queued session message is dispatched
to the resumption handler when its metadata carries a resumption token and
to the POST handler otherwise; channel output accumulates until the queue
drains or a handler raises, and the first exception stops the loop. -/
def post_writer_loop (decode : Decoder)
    (netPost : SessionMessage → Except String PostResponse)
    (netResume : SessionMessage → Except String (List ServerSentEvent)) :
    StreamableHTTPTransport → List SessionMessage →
    StreamableHTTPTransport × List ChannelItem × Option TransportException
  | t, [] => (t, [], none)
  | t, m :: rest =>
      let ctx : RequestContext :=
        { headers := [], session_id := t.session_id, session_message := m
          metadata := m.metadata, sse_read_timeout := 60 }
      if (resumptionTokenOf m.metadata).isSome then
        let rr := handle_resumption_request t decode ctx (netResume m)
        match rr.raised with
        | some e => (rr.transport, rr.channel, some e)
        | none =>
            let more := post_writer_loop decode netPost netResume rr.transport rest
            (more.1, rr.channel ++ more.2.1, more.2.2)
      else
        match handle_post_request t decode ctx (netPost m) with
        | Except.error e => (t, [], some e)
        | Except.ok pr =>
            let more := post_writer_loop decode netPost netResume pr.transport rest
            (more.1, pr.channel ++ more.2.1, more.2.2)

/-- Modelled from the spec and the test suite: the writer pump.  The loop
runs inside a catch-all: an exception from the HTTP client is logged, not
propagated, and on every exit path the pump closes both the read-channel
writer and its own write-channel end before returning. -/
def post_writer (t : StreamableHTTPTransport) (decode : Decoder)
    (netPost : SessionMessage → Except String PostResponse)
    (netResume : SessionMessage → Except String (List ServerSentEvent))
    (msgs : List SessionMessage) : PostWriterResult :=
  let out := post_writer_loop decode netPost netResume t msgs
  { transport := out.1
    channel := out.2.1
    read_stream_writer_closed := true
    write_stream_closed := true
    raised := false }

/-- Structural invalidity of an initialize result, as the claim words it: a
non-object result, or an object missing the protocolVersion field. -/
def structurallyInvalidResult : JsonValue → Prop
  | JsonValue.obj fields => lookupField fields "protocolVersion" = none
  | _ => True

theorem extractProtocolVersion_of_invalid (v : JsonValue)
    (h : structurallyInvalidResult v) : extractProtocolVersion v = none := by
  cases v <;> simp_all [structurallyInvalidResult, extractProtocolVersion]

/-
Concrete fixtures, mirroring the inputs the test suite constructs.
-/

/-- The transport every test constructs, fresh and without a session. -/
def testTransport : StreamableHTTPTransport :=
  { url := "http://test.example.com", session_id := none, protocol_version := none }

/-- The transport after a session id has been assigned. -/
def sessionTransport : StreamableHTTPTransport :=
  { url := "http://test.example.com", session_id := some "test-session"
    protocol_version := none }

/-- The structured initialize result of the test suite. -/
def initResultValue : JsonValue :=
  JsonValue.obj
    [("protocolVersion", JsonValue.str "2025-03-26"),
     ("serverInfo", JsonValue.obj
        [("name", JsonValue.str "test"), ("version", JsonValue.str "1.0")]),
     ("capabilities", JsonValue.obj [])]

/-- A concrete decoder covering the payloads the witnesses use; every other
payload is a decode failure, as the pydantic layer would report it. -/
def testDecode : Decoder := fun s =>
  if s = "init-response" then
    Except.ok (JSONRPCMessage.response { id := "init-1", result := initResultValue })
  else if s = "resumed-response" then
    Except.ok (JSONRPCMessage.response
      { id := "replaced-id", result := JsonValue.obj [("success", JsonValue.bool true)] })
  else if s = "invalid-result-response" then
    Except.ok (JSONRPCMessage.response
      { id := "test-id", result := JsonValue.obj [("invalid", JsonValue.str "structure")] })
  else if s = "string-result-response" then
    Except.ok (JSONRPCMessage.response
      { id := "test-id", result := JsonValue.str "string result" })
  else
    Except.error ("Error parsing message: " ++ s)

/-- A request context carrying a plain Request with id test-123. -/
def ctxRequest : RequestContext :=
  { headers := [], session_id := none
    session_message :=
      { message := JSONRPCMessage.request { id := "test-123", method := "test" }
        metadata := none }
    metadata := none, sse_read_timeout := 60 }

/-- A request context carrying a Notification. -/
def ctxNotif : RequestContext :=
  { headers := [], session_id := none
    session_message :=
      { message := JSONRPCMessage.notification { method := "notifications/initialized" }
        metadata := none }
    metadata := none, sse_read_timeout := 60 }

/-- A request context whose metadata lacks a resumption token. -/
def ctxNoToken : RequestContext :=
  { headers := [], session_id := none
    session_message :=
      { message := JSONRPCMessage.request { id := "1", method := "test" }
        metadata := none }
    metadata := some { resumption_token := none, has_on_resumption_token_update := false }
    sse_read_timeout := 60 }

/-- A request context for a resumed send: a token and an update callback. -/
def ctxResume : RequestContext :=
  { headers := [], session_id := none
    session_message :=
      { message := JSONRPCMessage.request { id := "original-id", method := "test" }
        metadata := none }
    metadata := some
      { resumption_token := some "test-token", has_on_resumption_token_update := true }
    sse_read_timeout := 60 }

/-- A bare 404 response. -/
def resp404 : PostResponse :=
  { status_code := 404, content_type := "", json_body := "", sse_events := [] }

/-- A 200 response with the text/plain content type. -/
def respTextPlain : PostResponse :=
  { status_code := 200, content_type := "text/plain", json_body := "", sse_events := [] }

/-- An SSE record whose data does not parse. -/
def sseBad : ServerSentEvent :=
  { event := "message", data := "invalid json", id := some "1" }

/-- An SSE record carrying a well-formed Response. -/
def sseGood : ServerSentEvent :=
  { event := "message", data := "resumed-response", id := none }

/-- The replayed SSE record of the resumption test: a Response under the
wire id replaced-id, with record id 1. -/
def sseResumed : ServerSentEvent :=
  { event := "message", data := "resumed-response", id := some "1" }

/-- A notification session message without metadata. -/
def notifMessage : SessionMessage :=
  { message := JSONRPCMessage.notification { method := "test" }, metadata := none }

/-- An HTTP client whose send always raises a connection error. -/
def failingNetPost : SessionMessage → Except String PostResponse :=
  fun _ => Except.error "Connection error"

/-- A resumption network stub that would deliver no events. -/
def emptyNetResume : SessionMessage → Except String (List ServerSentEvent) :=
  fun _ => Except.ok []

/-
Claim theorems.
-/

/-- Claim C1, counterexample: at the 404-with-Request input of the test
suite the handler emits exactly one ErrorResponse, and its code is 32600 —
not the -32600 the claim states, so the claim as written is false at this
input. -/
theorem post_404_code_counterexample :
    handle_post_request testTransport testDecode ctxRequest (Except.ok resp404) =
      Except.ok
        { transport := testTransport
          channel := [ChannelItem.msg
            { message := JSONRPCMessage.error
                { id := "test-123"
                  error := { code := 32600, message := "Session terminated" } }
              metadata := none }]
          tokenUpdates := [] }
    ∧ (32600 : Int) ≠ -32600 := by
  exact ⟨rfl, by decide⟩

/-- Claim C1, amended: a 404 response to a Request emits exactly one
ErrorResponse onto the read channel, with code 32600 (positive, as the
repository's test asserts), message Session terminated, and the original
request's id; a 404 response to a Notification yields no channel output. -/
theorem post_404_request_and_notification
    (t : StreamableHTTPTransport) (decode : Decoder) (ctx : RequestContext)
    (resp : PostResponse) (h404 : resp.status_code = 404) :
    (∀ r, ctx.session_message.message = JSONRPCMessage.request r →
      handle_post_request t decode ctx (Except.ok resp) =
        Except.ok
          { transport := t
            channel := [ChannelItem.msg
              { message := JSONRPCMessage.error
                  { id := r.id
                    error := { code := 32600, message := "Session terminated" } }
                metadata := none }]
            tokenUpdates := [] })
    ∧ (∀ n, ctx.session_message.message = JSONRPCMessage.notification n →
      handle_post_request t decode ctx (Except.ok resp) =
        Except.ok { transport := t, channel := [], tokenUpdates := [] }) := by
  constructor
  · intro r hr
    simp [handle_post_request, h404, hr, send_session_terminated_error]
  · intro n hn
    simp [handle_post_request, h404, hn]

/-- Claim C1, witness: the amended statement evaluated at the 404 inputs of
the test suite, one Request and one Notification. -/
theorem post_404_request_and_notification_witness :
    handle_post_request testTransport testDecode ctxRequest (Except.ok resp404) =
      Except.ok
        { transport := testTransport
          channel := [ChannelItem.msg
            { message := JSONRPCMessage.error
                { id := "test-123"
                  error := { code := 32600, message := "Session terminated" } }
              metadata := none }]
          tokenUpdates := [] }
    ∧ handle_post_request testTransport testDecode ctxNotif (Except.ok resp404) =
      Except.ok { transport := testTransport, channel := [], tokenUpdates := [] } :=
  ⟨(post_404_request_and_notification testTransport testDecode ctxRequest resp404 rfl).1
      { id := "test-123", method := "test" } rfl,
   (post_404_request_and_notification testTransport testDecode ctxNotif resp404 rfl).2
      { method := "notifications/initialized" } rfl⟩

/-- Claim C2: a resumption send whose metadata lacks a resumption token
raises a ResumptionError synchronously — zero network calls, an empty read
channel, and the distinguished error. -/
theorem resumption_without_token_fails_fast
    (t : StreamableHTTPTransport) (decode : Decoder) (ctx : RequestContext)
    (net : Except String (List ServerSentEvent))
    (htok : resumptionTokenOf ctx.metadata = none) :
    handle_resumption_request t decode ctx net =
      { transport := t, networkCalls := 0, channel := [], tokenUpdates := []
        raised := some (TransportException.resumptionError
          "Resumption request requires a resumption token") } := by
  simp [handle_resumption_request, htok]

/-- Claim C2, witness: the fail-fast statement evaluated at the token-less
context of the test suite. -/
theorem resumption_without_token_fails_fast_witness :
    handle_resumption_request testTransport testDecode ctxNoToken (Except.ok []) =
      { transport := testTransport, networkCalls := 0, channel := [], tokenUpdates := []
        raised := some (TransportException.resumptionError
          "Resumption request requires a resumption token") } :=
  resumption_without_token_fails_fast testTransport testDecode ctxNoToken
    (Except.ok []) rfl

/-- Claim C3: an initialize response whose result object carries
protocolVersion 2025-03-26 sets the stored protocol version to that value
on both the application/json path and the SSE path; a structurally invalid
result (non-object, or object without the field) leaves the transport
unchanged on both paths — so an unset version stays unset — while the
message is still forwarded normally and nothing is raised. -/
theorem protocol_version_extraction
    (t : StreamableHTTPTransport) (decode : Decoder) (body : String)
    (r : JSONRPCResponse)
    (hdec : decode body = Except.ok (JSONRPCMessage.response r)) :
    (∀ fields, r.result = JsonValue.obj fields →
      lookupField fields "protocolVersion" = some (JsonValue.str "2025-03-26") →
      (handle_json_response t decode body true).transport.protocol_version =
          some "2025-03-26"
        ∧ (handle_sse_event t decode { event := "message", data := body, id := none }
            none false true).transport.protocol_version = some "2025-03-26")
    ∧ (structurallyInvalidResult r.result →
      handle_json_response t decode body true =
        { transport := t
          channel := [ChannelItem.msg
            { message := JSONRPCMessage.response r, metadata := none }] }
        ∧ handle_sse_event t decode { event := "message", data := body, id := none }
            none false true =
          { transport := t
            channel := [ChannelItem.msg
              { message := JSONRPCMessage.response r, metadata := none }]
            tokenUpdates := [], complete := true }) := by
  constructor
  · intro fields hres hfv
    constructor
    · simp [handle_json_response, hdec, maybe_extract_protocol_version_from_message,
        extractProtocolVersion, hres, hfv]
    · simp [handle_sse_event, hdec, replaceResponseId,
        maybe_extract_protocol_version_from_message, extractProtocolVersion, hres, hfv]
  · intro hinv
    have hx := extractProtocolVersion_of_invalid r.result hinv
    constructor
    · simp [handle_json_response, hdec, maybe_extract_protocol_version_from_message, hx]
    · simp [handle_sse_event, hdec, replaceResponseId,
        maybe_extract_protocol_version_from_message, hx, isResponseOrError]

/-- Claim C3, witness: the extraction statement evaluated at the valid
initialize result of the test suite and at its two invalid results. -/
theorem protocol_version_extraction_witness :
    (handle_json_response testTransport testDecode "init-response" true).transport.protocol_version
        = some "2025-03-26"
    ∧ (handle_sse_event testTransport testDecode
        { event := "message", data := "init-response", id := none }
        none false true).transport.protocol_version = some "2025-03-26"
    ∧ handle_json_response testTransport testDecode "invalid-result-response" true =
        { transport := testTransport
          channel := [ChannelItem.msg
            { message := JSONRPCMessage.response
                { id := "test-id"
                  result := JsonValue.obj [("invalid", JsonValue.str "structure")] }
              metadata := none }] }
    ∧ handle_json_response testTransport testDecode "string-result-response" true =
        { transport := testTransport
          channel := [ChannelItem.msg
            { message := JSONRPCMessage.response
                { id := "test-id", result := JsonValue.str "string result" }
              metadata := none }] } := by
  have hvalid := (protocol_version_extraction testTransport testDecode "init-response"
    { id := "init-1", result := initResultValue } rfl).1
    [("protocolVersion", JsonValue.str "2025-03-26"),
     ("serverInfo", JsonValue.obj
        [("name", JsonValue.str "test"), ("version", JsonValue.str "1.0")]),
     ("capabilities", JsonValue.obj [])] rfl rfl
  have hinv1 := (protocol_version_extraction testTransport testDecode
    "invalid-result-response"
    { id := "test-id", result := JsonValue.obj [("invalid", JsonValue.str "structure")] }
    rfl).2 (by simp [structurallyInvalidResult, lookupField])
  have hinv2 := (protocol_version_extraction testTransport testDecode
    "string-result-response"
    { id := "test-id", result := JsonValue.str "string result" }
    rfl).2 (by simp [structurallyInvalidResult])
  exact ⟨hvalid.1, hvalid.2, hinv1.1, hinv2.1⟩

/-- Claim C4: a resumed send with a token whose replayed stream delivers one
message record with id 1 invokes the update callback with 1 exactly once,
and the forwarded Response carries the original request's id even when the
server returned it under a different wire id. -/
theorem resumption_replays_with_original_id
    (t : StreamableHTTPTransport) (decode : Decoder) (ctx : RequestContext)
    (tok : String) (origReq : JSONRPCRequest) (sse : ServerSentEvent)
    (wire : JSONRPCResponse)
    (hmd : ctx.metadata =
      some { resumption_token := some tok, has_on_resumption_token_update := true })
    (hmsg : ctx.session_message.message = JSONRPCMessage.request origReq)
    (hev : sse.event = "message") (hid : sse.id = some "1")
    (hdec : decode sse.data = Except.ok (JSONRPCMessage.response wire)) :
    handle_resumption_request t decode ctx (Except.ok [sse]) =
      { transport := t, networkCalls := 1
        channel := [ChannelItem.msg
          { message := JSONRPCMessage.response { id := origReq.id, result := wire.result }
            metadata := none }]
        tokenUpdates := ["1"], raised := none } := by
  simp [handle_resumption_request, resumptionTokenOf, hmd, hmsg, hasCallbackOf,
    processSSEStream, handle_sse_event, hev, hid, hdec, replaceResponseId,
    isResponseOrError]

/-- Claim C4, witness: the resumption statement evaluated at the replayed
stream of the test suite, whose Response arrives under the wire id
replaced-id and is forwarded under the original id original-id. -/
theorem resumption_replays_with_original_id_witness :
    handle_resumption_request testTransport testDecode ctxResume
        (Except.ok [sseResumed]) =
      { transport := testTransport, networkCalls := 1
        channel := [ChannelItem.msg
          { message := JSONRPCMessage.response
              { id := "original-id"
                result := JsonValue.obj [("success", JsonValue.bool true)] }
            metadata := none }]
        tokenUpdates := ["1"], raised := none } :=
  resumption_replays_with_original_id testTransport testDecode ctxResume
    "test-token" { id := "original-id", method := "test" } sseResumed
    { id := "replaced-id", result := JsonValue.obj [("success", JsonValue.bool true)] }
    rfl rfl rfl rfl rfl

/-- Claim C5: an SSE record named message whose data does not decode pushes
the decode exception itself onto the read channel exactly once, reports the
record as not complete, and does not terminate the stream — a following
valid record is still decoded and forwarded. -/
theorem sse_decode_failure_recoverable
    (t : StreamableHTTPTransport) (decode : Decoder)
    (bad good : ServerSentEvent) (e : String) (m : JSONRPCMessage)
    (hbe : bad.event = "message") (hbd : decode bad.data = Except.error e)
    (hge : good.event = "message") (hgd : decode good.data = Except.ok m) :
    handle_sse_event t decode bad none false false =
      { transport := t
        channel := [ChannelItem.exc (TransportException.decodeError e)]
        tokenUpdates := [], complete := false }
    ∧ (processSSEStream decode none false false t [bad, good]).channel =
      [ChannelItem.exc (TransportException.decodeError e),
       ChannelItem.msg { message := m, metadata := none }] := by
  constructor
  · simp [handle_sse_event, hbe, hbd]
  · simp only [processSSEStream, handle_sse_event, hbe, hbd, hge, hgd]
    cases h : isResponseOrError m <;>
      simp [processSSEStream, handle_sse_event, hbe, hbd, hge, hgd,
        replaceResponseId, h]

/-- Claim C5, witness: the recoverability statement evaluated at an
unparsable record followed by the well-formed record of the test suite. -/
theorem sse_decode_failure_recoverable_witness :
    handle_sse_event testTransport testDecode sseBad none false false =
      { transport := testTransport
        channel := [ChannelItem.exc
          (TransportException.decodeError "Error parsing message: invalid json")]
        tokenUpdates := [], complete := false }
    ∧ (processSSEStream testDecode none false false testTransport
        [sseBad, sseGood]).channel =
      [ChannelItem.exc
        (TransportException.decodeError "Error parsing message: invalid json"),
       ChannelItem.msg
        { message := JSONRPCMessage.response
            { id := "replaced-id"
              result := JsonValue.obj [("success", JsonValue.bool true)] }
          metadata := none }] :=
  sse_decode_failure_recoverable testTransport testDecode sseBad sseGood
    "Error parsing message: invalid json"
    (JSONRPCMessage.response
      { id := "replaced-id", result := JsonValue.obj [("success", JsonValue.bool true)] })
    rfl rfl rfl rfl

/-- Claim C6: session termination is best-effort — it never raises to the
caller, whatever status or connection failure the termination call meets,
and with no session id set it makes zero network calls. -/
theorem terminate_session_best_effort
    (t : StreamableHTTPTransport) (net : Except String Nat) :
    (terminate_session t net).raised = false
    ∧ (t.session_id = none →
        terminate_session t net =
          { networkCalls := 0, outcome := TerminateOutcome.noSession, raised := false }) := by
  constructor
  · match hb : terminate_session_body t net with
    | Except.ok (calls, outcome) => simp [terminate_session, hb]
    | Except.error e => simp [terminate_session, hb]
  · intro hs
    simp [terminate_session, terminate_session_body, hs]

/-- Claim C6, witness: the best-effort statement evaluated with no session
id, with the 405 and 500 statuses, and with a connection failure. -/
theorem terminate_session_best_effort_witness :
    terminate_session testTransport (Except.ok 200) =
      { networkCalls := 0, outcome := TerminateOutcome.noSession, raised := false }
    ∧ (terminate_session sessionTransport (Except.ok 405)).raised = false
    ∧ (terminate_session sessionTransport (Except.ok 500)).raised = false
    ∧ (terminate_session sessionTransport (Except.error "Connection failed")).raised
        = false :=
  ⟨(terminate_session_best_effort testTransport (Except.ok 200)).2 rfl,
   (terminate_session_best_effort sessionTransport (Except.ok 405)).1,
   (terminate_session_best_effort sessionTransport (Except.ok 500)).1,
   (terminate_session_best_effort sessionTransport (Except.error "Connection failed")).1⟩

/-- Claim C7: with no session id set, the GET stream listener returns
immediately — zero network calls, zero channel output, nothing raised. -/
theorem get_stream_no_session
    (t : StreamableHTTPTransport) (decode : Decoder)
    (net : Except String (List ServerSentEvent))
    (hs : t.session_id = none) :
    handle_get_stream t decode net =
      { transport := t, networkCalls := 0, channel := [], raised := false } := by
  simp [handle_get_stream, handle_get_stream_body, hs]

/-- Claim C7, witness: the no-session statement evaluated at the fresh
transport of the test suite. -/
theorem get_stream_no_session_witness :
    handle_get_stream testTransport testDecode (Except.ok []) =
      { transport := testTransport, networkCalls := 0, channel := [], raised := false } :=
  get_stream_no_session testTransport testDecode (Except.ok []) rfl

/-- Claim C8: a connection-level failure on the GET stream listener is
caught inside the listener — nothing is propagated to the caller and no
error value is placed on the read channel. -/
theorem get_stream_connection_error_quiet
    (t : StreamableHTTPTransport) (decode : Decoder) (s e : String)
    (hs : t.session_id = some s) :
    handle_get_stream t decode (Except.error e) =
      { transport := t, networkCalls := 1, channel := [], raised := false } := by
  simp [handle_get_stream, handle_get_stream_body, hs]

/-- Claim C8, witness: the quiet-failure statement evaluated at a transport
holding a session id and a failing connection. -/
theorem get_stream_connection_error_quiet_witness :
    handle_get_stream sessionTransport testDecode
        (Except.error "All connection attempts failed") =
      { transport := sessionTransport, networkCalls := 1, channel := []
        raised := false } :=
  get_stream_connection_error_quiet sessionTransport testDecode "test-session"
    "All connection attempts failed" rfl

/-- Claim C9: a 200 response whose content type is neither application/json
nor text/event-stream emits exactly one ValueError naming the offending
content type onto the read channel, and nothing escapes the handler. -/
theorem post_unexpected_content_type
    (t : StreamableHTTPTransport) (decode : Decoder) (ctx : RequestContext)
    (resp : PostResponse)
    (h200 : resp.status_code = 200)
    (hj : strStartsWith resp.content_type "application/json" = false)
    (hs : strStartsWith resp.content_type "text/event-stream" = false) :
    handle_post_request t decode ctx (Except.ok resp) =
      Except.ok
        { transport := t
          channel := [ChannelItem.exc (TransportException.valueError
            ("Unexpected content type: " ++ resp.content_type))]
          tokenUpdates := [] } := by
  simp [handle_post_request, h200, hj, hs, handle_unexpected_content_type]

/-- Claim C9, witness: the unexpected-content-type statement evaluated at
the 200 text/plain response of the test suite. -/
theorem post_unexpected_content_type_witness :
    handle_post_request testTransport testDecode ctxRequest (Except.ok respTextPlain) =
      Except.ok
        { transport := testTransport
          channel := [ChannelItem.exc (TransportException.valueError
            "Unexpected content type: text/plain")]
          tokenUpdates := [] } :=
  post_unexpected_content_type testTransport testDecode ctxRequest respTextPlain
    rfl rfl rfl

/-- Claim C10: when the HTTP client raises while the writer pump sends a
queued message, the pump does not propagate the exception — it returns
normally with both the read-channel writer and its write-channel end
closed. -/
theorem post_writer_handles_client_exception
    (t : StreamableHTTPTransport) (decode : Decoder)
    (netPost : SessionMessage → Except String PostResponse)
    (netResume : SessionMessage → Except String (List ServerSentEvent))
    (m : SessionMessage) (e : String)
    (hmd : resumptionTokenOf m.metadata = none)
    (hnet : netPost m = Except.error e) :
    post_writer t decode netPost netResume [m] =
      { transport := t, channel := [], read_stream_writer_closed := true
        write_stream_closed := true, raised := false } := by
  simp [post_writer, post_writer_loop, hmd, hnet, handle_post_request]

/-- Claim C10, witness: the pump statement evaluated at the test suite's
scenario — one queued notification and a client whose send raises. -/
theorem post_writer_handles_client_exception_witness :
    post_writer testTransport testDecode failingNetPost emptyNetResume [notifMessage] =
      { transport := testTransport, channel := [], read_stream_writer_closed := true
        write_stream_closed := true, raised := false } :=
  post_writer_handles_client_exception testTransport testDecode failingNetPost
    emptyNetResume notifMessage "Connection error" rfl rfl

end StreamableHttpModel
